import Mathlib

/-!
Verification of the `alsa_conformance_thread.h` interface of cros-audiotest.

The repository source under scrutiny is a C header declaring the device
thread worker API.  Part A embeds the header's declaration surface as data
(names, parameter types, return types), faithful to the file line by line.
Part B models the behaviour of the operations; since only the header is in
the repository snapshot, the behaviour is modelled from the specification's
description of each operation, as marked on each definition.
-/

/- ## Part A: the declaration surface of alsa_conformance_thread.h -/

/-- C types appearing in the declarations of `alsa_conformance_thread.h`. -/
inductive CType where
  | void
  | voidPtr
  | devThreadPtr
  | constCharPtr
  | unsignedInt
  | signedInt
  | doubleT
  | sndPcmStreamT
  | sndPcmFormatT
  | sndPcmUframesT
  | sndPcmSframesT
  deriving DecidableEq, BEq

/-- One C function declaration: name, return type, parameter types. -/
structure CDecl where
  name : String
  ret : CType
  params : List CType
  deriving DecidableEq, BEq

/-- The 21 declarations of `alsa_conformance_thread.h`, in file order
(lines 11 to 74 of the header). -/
def headerDecls : List CDecl :=
  [ ⟨"dev_thread_create", CType.devThreadPtr, []⟩,
    ⟨"dev_thread_destroy", CType.void, [CType.devThreadPtr]⟩,
    ⟨"dev_thread_set_stream", CType.void, [CType.devThreadPtr, CType.sndPcmStreamT]⟩,
    ⟨"dev_thread_set_dev_name", CType.void, [CType.devThreadPtr, CType.constCharPtr]⟩,
    ⟨"dev_thread_set_channels", CType.void, [CType.devThreadPtr, CType.unsignedInt]⟩,
    ⟨"dev_thread_set_format", CType.void, [CType.devThreadPtr, CType.sndPcmFormatT]⟩,
    ⟨"dev_thread_set_format_from_str", CType.void, [CType.devThreadPtr, CType.constCharPtr]⟩,
    ⟨"dev_thread_set_rate", CType.void, [CType.devThreadPtr, CType.unsignedInt]⟩,
    ⟨"dev_thread_set_period_size", CType.void, [CType.devThreadPtr, CType.sndPcmUframesT]⟩,
    ⟨"dev_thread_set_block_size", CType.void, [CType.devThreadPtr, CType.unsignedInt]⟩,
    ⟨"dev_thread_set_duration", CType.void, [CType.devThreadPtr, CType.doubleT]⟩,
    ⟨"dev_thread_open_device", CType.void, [CType.devThreadPtr]⟩,
    ⟨"dev_thread_close_device", CType.void, [CType.devThreadPtr]⟩,
    ⟨"dev_thread_set_params", CType.void, [CType.devThreadPtr]⟩,
    ⟨"dev_thread_set_iterations", CType.void, [CType.devThreadPtr, CType.signedInt]⟩,
    ⟨"dev_thread_run_iterations", CType.voidPtr, [CType.voidPtr]⟩,
    ⟨"dev_thread_print_device_information", CType.void, [CType.devThreadPtr]⟩,
    ⟨"dev_thread_print_params", CType.void, [CType.devThreadPtr]⟩,
    ⟨"dev_thread_print_result", CType.void, [CType.devThreadPtr]⟩,
    ⟨"dev_thread_set_merge_threshold_t", CType.void, [CType.devThreadPtr, CType.doubleT]⟩,
    ⟨"dev_thread_set_merge_threshold_size", CType.void, [CType.devThreadPtr, CType.sndPcmSframesT]⟩ ]

/-- Groups of the API surface, as the specification partitions it:
lifecycle (create/destroy), configuration setters, device operations
(open/close/set_params), the run entry point, and print/report calls. -/
inductive SurfaceGroup where
  | lifecycle
  | configSetter
  | deviceOp
  | runEntry
  | printOp
  deriving DecidableEq, BEq

/-- Classify a declaration of the header into its surface group, by name.
Configuration setters are the `dev_thread_set_*` functions other than
`dev_thread_set_params`, which the header documents as setting hw/sw
params against the open device. -/
def classify (d : CDecl) : SurfaceGroup :=
  if d.name == "dev_thread_create" || d.name == "dev_thread_destroy" then
    SurfaceGroup.lifecycle
  else if d.name == "dev_thread_open_device" || d.name == "dev_thread_close_device"
      || d.name == "dev_thread_set_params" then
    SurfaceGroup.deviceOp
  else if List.isPrefixOf "dev_thread_set_".data d.name.data then
    SurfaceGroup.configSetter
  else if d.name == "dev_thread_run_iterations" then
    SurfaceGroup.runEntry
  else
    SurfaceGroup.printOp

/-- Whether a declared C type mentions `struct dev_thread *`. -/
def mentionsDevThread (d : CDecl) : Bool :=
  d.ret == CType.devThreadPtr || d.params.contains CType.devThreadPtr

/- ## Part B: modelled behaviour of the device thread object -/

/-- Stream direction, `snd_pcm_stream_t`. -/
inductive snd_pcm_stream_t where
  | PLAYBACK
  | CAPTURE
  deriving DecidableEq, BEq

/-- Sample encodings, `snd_pcm_format_t` (a representative subset of the
ALSA sample-format enum; the header leaves the enum to the audio library). -/
inductive snd_pcm_format_t where
  | U8
  | S16_LE
  | S24_LE
  | S32_LE
  | FLOAT_LE
  deriving DecidableEq, BEq

/-- Modelled from the spec: the format-string recognizer behind
`dev_thread_set_format_from_str` is not in the repository snapshot (only
its declaration is); the spec says the format is "parsed from a string"
and that an unrecognized string is invalid.  Recognized strings are the
canonical names of the sample encodings. -/
def format_of_str (s : String) : Option snd_pcm_format_t :=
  if s == "U8" then some snd_pcm_format_t.U8
  else if s == "S16_LE" then some snd_pcm_format_t.S16_LE
  else if s == "S24_LE" then some snd_pcm_format_t.S24_LE
  else if s == "S32_LE" then some snd_pcm_format_t.S32_LE
  else if s == "FLOAT_LE" then some snd_pcm_format_t.FLOAT_LE
  else none

/-- The device thread configuration state, from the spec's data model:
device name, stream direction, format, rate, channels, period size, block
size, duration, iteration count, and the two merge thresholds.  C `double`
values are modelled as rationals. -/
structure dev_thread where
  stream : snd_pcm_stream_t
  dev_name : Option String
  channels : Nat
  format : Option snd_pcm_format_t
  rate : Nat
  period_size : Nat
  block_size : Nat
  duration : Rat
  iterations : Int
  merge_threshold_t : Rat
  merge_threshold_sz : Int
  deriving DecidableEq, BEq

/-- Errors the spec names for this interface. -/
inductive dev_thread_error where
  | InvalidFormatString
  deriving DecidableEq, BEq

/-- Modelled from the spec: `dev_thread_create` returns a fresh handle;
the header does not document defaults, so all fields start zero/empty. -/
def dev_thread_create : dev_thread :=
  { stream := snd_pcm_stream_t.PLAYBACK
    dev_name := none
    channels := 0
    format := none
    rate := 0
    period_size := 0
    block_size := 0
    duration := 0
    iterations := 0
    merge_threshold_t := 0
    merge_threshold_sz := 0 }

/-- Modelled from the spec: set stream direction. -/
def dev_thread_set_stream (t : dev_thread) (s : snd_pcm_stream_t) : dev_thread :=
  { t with stream := s }

/-- Modelled from the spec: set device name. -/
def dev_thread_set_dev_name (t : dev_thread) (n : String) : dev_thread :=
  { t with dev_name := some n }

/-- Modelled from the spec: set channel count. -/
def dev_thread_set_channels (t : dev_thread) (c : Nat) : dev_thread :=
  { t with channels := c }

/-- Modelled from the spec: set the sample format directly from the enum. -/
def dev_thread_set_format (t : dev_thread) (f : snd_pcm_format_t) : dev_thread :=
  { t with format := some f }

/-- Modelled from the spec: set the sample format from a format string;
an unrecognized string signals `InvalidFormatString` and leaves the
previously configured format unchanged. -/
def dev_thread_set_format_from_str (t : dev_thread) (s : String) :
    dev_thread × Option dev_thread_error :=
  match format_of_str s with
  | some f => (dev_thread_set_format t f, none)
  | none => (t, some dev_thread_error.InvalidFormatString)

/-- Modelled from the spec: set sample rate. -/
def dev_thread_set_rate (t : dev_thread) (r : Nat) : dev_thread :=
  { t with rate := r }

/-- Modelled from the spec: set period size. -/
def dev_thread_set_period_size (t : dev_thread) (p : Nat) : dev_thread :=
  { t with period_size := p }

/-- Modelled from the spec: set block size per write. -/
def dev_thread_set_block_size (t : dev_thread) (b : Nat) : dev_thread :=
  { t with block_size := b }

/-- Modelled from the spec: set stream duration in seconds. -/
def dev_thread_set_duration (t : dev_thread) (d : Rat) : dev_thread :=
  { t with duration := d }

/-- Modelled from the spec: set the iteration count.  The C parameter is
a signed `int`, so the setter is total over the integers. -/
def dev_thread_set_iterations (t : dev_thread) (n : Int) : dev_thread :=
  { t with iterations := n }

/-- Modelled from the spec: set the time-delta merge threshold. -/
def dev_thread_set_merge_threshold_t (t : dev_thread) (x : Rat) : dev_thread :=
  { t with merge_threshold_t := x }

/-- Modelled from the spec: set the frame-count merge threshold. -/
def dev_thread_set_merge_threshold_size (t : dev_thread) (x : Int) : dev_thread :=
  { t with merge_threshold_sz := x }

/-- One open/stream/close-equivalent cycle of the run loop, recording that
the device was opened, streamed for some duration, and closed. -/
structure stream_cycle where
  opened : Bool
  stream_duration : Rat
  closed : Bool
  deriving DecidableEq, BEq

/-- Modelled from the spec: `dev_thread_run_iterations` performs
`iterations` cycles of streaming for `duration` seconds each; the spec
requires iteration count at least 1 for it to perform work, so a count
below one yields no cycles. -/
def dev_thread_run_iterations (t : dev_thread) : List stream_cycle :=
  List.replicate t.iterations.toNat
    { opened := true, stream_duration := t.duration, closed := true }

/-- A configuration-setter invocation with its argument, covering the 12
`dev_thread_set_*` configuration setters of the header. -/
inductive setter_call where
  | stream (s : snd_pcm_stream_t)
  | dev_name (n : String)
  | channels (c : Nat)
  | format (f : snd_pcm_format_t)
  | format_from_str (s : String)
  | rate (r : Nat)
  | period_size (p : Nat)
  | block_size (b : Nat)
  | duration (d : Rat)
  | iterations (n : Int)
  | merge_threshold_t (x : Rat)
  | merge_threshold_size (x : Int)
  deriving DecidableEq, BEq

/-- Apply a configuration-setter invocation to a thread state (for the
string form, the resulting state, discarding the error signal). -/
def apply_setter (c : setter_call) (t : dev_thread) : dev_thread :=
  match c with
  | setter_call.stream s => dev_thread_set_stream t s
  | setter_call.dev_name n => dev_thread_set_dev_name t n
  | setter_call.channels c => dev_thread_set_channels t c
  | setter_call.format f => dev_thread_set_format t f
  | setter_call.format_from_str s => (dev_thread_set_format_from_str t s).1
  | setter_call.rate r => dev_thread_set_rate t r
  | setter_call.period_size p => dev_thread_set_period_size t p
  | setter_call.block_size b => dev_thread_set_block_size t b
  | setter_call.duration d => dev_thread_set_duration t d
  | setter_call.iterations n => dev_thread_set_iterations t n
  | setter_call.merge_threshold_t x => dev_thread_set_merge_threshold_t t x
  | setter_call.merge_threshold_size x => dev_thread_set_merge_threshold_size t x

/-- The index of the configuration field a setter invocation writes;
`set_format` and `set_format_from_str` both write the format field. -/
def setter_field (c : setter_call) : Nat :=
  match c with
  | setter_call.stream _ => 0
  | setter_call.dev_name _ => 1
  | setter_call.channels _ => 2
  | setter_call.format _ => 3
  | setter_call.format_from_str _ => 3
  | setter_call.rate _ => 4
  | setter_call.period_size _ => 5
  | setter_call.block_size _ => 6
  | setter_call.duration _ => 7
  | setter_call.iterations _ => 8
  | setter_call.merge_threshold_t _ => 9
  | setter_call.merge_threshold_size _ => 10

/-- The caller-owned string buffer visible across a call that takes a
`const char *` argument: the call returns the updated thread together
with the buffer it leaves behind.  The `const` qualifier in the header
means the callee reads but never writes the buffer. -/
structure call_env where
  arg_str : String
  deriving DecidableEq, BEq

/-- `dev_thread_set_dev_name` at the memory level: the thread is updated
from the buffer and the buffer is left as found (its parameter is
`const char *`). -/
def dev_thread_set_dev_name_call (t : dev_thread) (e : call_env) :
    dev_thread × call_env :=
  (dev_thread_set_dev_name t e.arg_str, e)

/-- `dev_thread_set_format_from_str` at the memory level: the thread is
updated from the buffer and the buffer is left as found (its parameter is
`const char *`). -/
def dev_thread_set_format_from_str_call (t : dev_thread) (e : call_env) :
    (dev_thread × Option dev_thread_error) × call_env :=
  (dev_thread_set_format_from_str t e.arg_str, e)

/- ## Claim theorems -/

/-- C1: for every valid format string `s`, `dev_thread_set_format_from_str`
leaves the thread's format configuration equal to what
`dev_thread_set_format` produces at the enum value corresponding to `s`,
and signals no error. -/
theorem set_format_from_str_refines_set_format (t : dev_thread) (s : String)
    (f : snd_pcm_format_t) (h : format_of_str s = some f) :
    dev_thread_set_format_from_str t s = (dev_thread_set_format t f, none) := by
  simp [dev_thread_set_format_from_str, h]

/-- Witness for C1 at the valid format string "S16_LE". -/
theorem set_format_from_str_refines_set_format_witness :
    dev_thread_set_format_from_str dev_thread_create "S16_LE"
      = (dev_thread_set_format dev_thread_create snd_pcm_format_t.S16_LE, none) :=
  set_format_from_str_refines_set_format dev_thread_create "S16_LE"
    snd_pcm_format_t.S16_LE (by decide)

/-- C2: for every unrecognized format string, `dev_thread_set_format_from_str`
signals `InvalidFormatString` and leaves the previously configured format
unchanged. -/
theorem set_format_from_str_invalid (t : dev_thread) (s : String)
    (h : format_of_str s = none) :
    dev_thread_set_format_from_str t s
        = (t, some dev_thread_error.InvalidFormatString)
      ∧ (dev_thread_set_format_from_str t s).1.format = t.format := by
  simp [dev_thread_set_format_from_str, h]

/-- Witness for C2 at the unrecognized format string "no_such_format". -/
theorem set_format_from_str_invalid_witness :
    dev_thread_set_format_from_str dev_thread_create "no_such_format"
        = (dev_thread_create, some dev_thread_error.InvalidFormatString)
      ∧ (dev_thread_set_format_from_str dev_thread_create "no_such_format").1.format
        = dev_thread_create.format :=
  set_format_from_str_invalid dev_thread_create "no_such_format" (by decide)

/-- C7: `dev_thread_run_iterations` performs work only when the configured
iteration count is at least 1; below 1 it performs no cycles. -/
theorem run_iterations_work_iff_positive (t : dev_thread) :
    (t.iterations < 1 → dev_thread_run_iterations t = [])
      ∧ (1 ≤ t.iterations → dev_thread_run_iterations t ≠ []) := by
  constructor
  · intro h
    have hz : t.iterations.toNat = 0 := Int.toNat_of_nonpos (by omega)
    simp [dev_thread_run_iterations, hz]
  · intro h
    have hz : t.iterations.toNat ≠ 0 := by omega
    simp [dev_thread_run_iterations, List.replicate, hz]

/-- Witness for C7: a thread with iteration count 0 runs no cycles, and one
with iteration count 1 runs a nonempty list of cycles. -/
theorem run_iterations_work_iff_positive_witness :
    dev_thread_run_iterations (dev_thread_set_iterations dev_thread_create 0) = []
      ∧ dev_thread_run_iterations (dev_thread_set_iterations dev_thread_create 1) ≠ [] :=
  ⟨(run_iterations_work_iff_positive
      (dev_thread_set_iterations dev_thread_create 0)).1 (by decide),
   (run_iterations_work_iff_positive
      (dev_thread_set_iterations dev_thread_create 1)).2 (by decide)⟩

/-- C10: `dev_thread_set_iterations` is declared over a signed C `int`, and
the modelled setter is total over the integers: every iteration count,
zero and negative values included, is a well-formed argument and is stored
as given, with no lower bound enforced. -/
theorem set_iterations_accepts_all_ints :
    (headerDecls.filter (fun d => d.name == "dev_thread_set_iterations"))
        = [⟨"dev_thread_set_iterations", CType.void,
            [CType.devThreadPtr, CType.signedInt]⟩]
      ∧ ∀ (t : dev_thread) (n : Int), (dev_thread_set_iterations t n).iterations = n := by
  exact ⟨by decide, fun t n => rfl⟩

/-- C5: no declaration of the header carries a failure indication in its
return type: no declaration returns a C `int` error code, and every
operation other than `dev_thread_create` and `dev_thread_run_iterations`
returns `void`. -/
theorem header_no_error_return_types :
    headerDecls.all (fun d => !(d.ret == CType.signedInt)
        && !(d.ret == CType.unsignedInt)) = true
      ∧ headerDecls.all (fun d =>
          d.name == "dev_thread_create" || d.name == "dev_thread_run_iterations"
            || d.ret == CType.void) = true := by
  decide

/-- C8: `dev_thread_run_iterations` is declared as `void *(void *)`, the
shape of a thread-library start routine, while every other declaration of
the header mentions `struct dev_thread *` in its type. -/
theorem run_iterations_thread_entry_signature :
    (headerDecls.filter (fun d => d.name == "dev_thread_run_iterations"))
        = [⟨"dev_thread_run_iterations", CType.voidPtr, [CType.voidPtr]⟩]
      ∧ headerDecls.all (fun d =>
          d.name == "dev_thread_run_iterations" || mentionsDevThread d) = true := by
  decide

/-- C9: `dev_thread_set_dev_name` and `dev_thread_set_format_from_str`
receive their string arguments as `const char *`, and at the memory level
the modelled calls return the caller's string buffer exactly as it was
passed in. -/
theorem string_setters_const_and_preserve :
    headerDecls.all (fun d =>
        !(d.name == "dev_thread_set_dev_name"
            || d.name == "dev_thread_set_format_from_str")
          || d.params == [CType.devThreadPtr, CType.constCharPtr]) = true
      ∧ (∀ (t : dev_thread) (e : call_env),
          (dev_thread_set_dev_name_call t e).2.arg_str = e.arg_str)
      ∧ (∀ (t : dev_thread) (e : call_env),
          (dev_thread_set_format_from_str_call t e).2.arg_str = e.arg_str) := by
  exact ⟨by decide, fun t e => rfl, fun t e => rfl⟩

/-- C4 counterexample: the header does not declare 15 configuration
setters; the count of `dev_thread_set_*` configuration setters is 12. -/
theorem config_setter_count_not_fifteen :
    (headerDecls.filter (fun d => classify d == SurfaceGroup.configSetter)).length = 12
      ∧ (headerDecls.filter (fun d => classify d == SurfaceGroup.configSetter)).length ≠ 15 := by
  decide

/-- C4 (amended): the surface exposed to callers consists exactly of
create/destroy (2 lifecycle calls), 12 configuration setters,
open_device/close_device/set_params (3 device operations), run_iterations
(1 run entry point), and 3 print/report functions — 21 declarations in
all, each falling in exactly one of these groups, with the print group
exactly the three `dev_thread_print_*` functions. -/
theorem header_surface_partition :
    (headerDecls.filter (fun d => classify d == SurfaceGroup.lifecycle)).length = 2
      ∧ (headerDecls.filter (fun d => classify d == SurfaceGroup.configSetter)).length = 12
      ∧ (headerDecls.filter (fun d => classify d == SurfaceGroup.deviceOp)).length = 3
      ∧ (headerDecls.filter (fun d => classify d == SurfaceGroup.runEntry)).length = 1
      ∧ (headerDecls.filter (fun d => classify d == SurfaceGroup.printOp)).length = 3
      ∧ headerDecls.length = 21
      ∧ (headerDecls.filter (fun d => classify d == SurfaceGroup.printOp)).all
          (fun d => d.name == "dev_thread_print_device_information"
            || d.name == "dev_thread_print_params"
            || d.name == "dev_thread_print_result") = true
      ∧ (headerDecls.filter (fun d => classify d == SurfaceGroup.lifecycle)).all
          (fun d => d.name == "dev_thread_create"
            || d.name == "dev_thread_destroy") = true := by
  decide

/-- C3 counterexample: the iteration count is a signed `int`, and after
setting it to -1 the run performs 0 cycles, not -1, so the claim fails as
universally stated. -/
theorem run_iterations_negative_count_counterexample :
    ¬ (((dev_thread_run_iterations
          (dev_thread_set_iterations dev_thread_create (-1))).length : Int) = -1) := by
  decide

/-- C3 (amended): for every thread whose iteration count has been set to a
nonnegative N, `dev_thread_run_iterations` performs exactly N
open/stream/close-equivalent cycles, each streaming for the configured
duration. -/
theorem run_iterations_cycle_count (t : dev_thread) (n : Int) (h : 0 ≤ n) :
    ((dev_thread_run_iterations (dev_thread_set_iterations t n)).length : Int) = n
      ∧ ∀ c ∈ dev_thread_run_iterations (dev_thread_set_iterations t n),
          c = { opened := true, stream_duration := t.duration, closed := true } := by
  constructor
  · simp [dev_thread_run_iterations, dev_thread_set_iterations, Int.toNat_of_nonneg h]
  · intro c hc
    simp only [dev_thread_run_iterations] at hc
    exact List.eq_of_mem_replicate hc

/-- Witness for amended C3 at iteration count 2. -/
theorem run_iterations_cycle_count_witness :
    ((dev_thread_run_iterations
        (dev_thread_set_iterations dev_thread_create 2)).length : Int) = 2
      ∧ ∀ c ∈ dev_thread_run_iterations (dev_thread_set_iterations dev_thread_create 2),
          c = { opened := true, stream_duration := dev_thread_create.duration,
                closed := true } :=
  run_iterations_cycle_count dev_thread_create 2 (by decide)

/-- C6 counterexample: `dev_thread_set_format` and
`dev_thread_set_format_from_str` are distinct configuration setters, yet
applying them in the two orders to a fresh thread yields different
configuration states (the later call wins on the shared format field). -/
theorem format_setters_not_order_independent :
    (dev_thread_set_format_from_str
        (dev_thread_set_format dev_thread_create snd_pcm_format_t.S16_LE) "S32_LE").1
      ≠ dev_thread_set_format
          (dev_thread_set_format_from_str dev_thread_create "S32_LE").1
          snd_pcm_format_t.S16_LE := by
  decide

/-- C6 (amended): configuration setters that write distinct configuration
fields are order-independent: applying two such setter invocations to the
same thread in either order yields the same configuration state. -/
theorem distinct_field_setters_commute (c1 c2 : setter_call) (t : dev_thread)
    (h : setter_field c1 ≠ setter_field c2) :
    apply_setter c1 (apply_setter c2 t) = apply_setter c2 (apply_setter c1 t) := by
  cases c1 <;> cases c2 <;>
    first
      | exact absurd rfl h
      | rfl
      | (simp only [apply_setter, dev_thread_set_format_from_str]; split <;> rfl)

/-- Witness for amended C6: setting rate and channels commutes. -/
theorem distinct_field_setters_commute_witness :
    apply_setter (setter_call.rate 48000)
        (apply_setter (setter_call.channels 2) dev_thread_create)
      = apply_setter (setter_call.channels 2)
          (apply_setter (setter_call.rate 48000) dev_thread_create) :=
  distinct_field_setters_commute (setter_call.rate 48000) (setter_call.channels 2)
    dev_thread_create (by decide)
